import Mathlib

/- Shallow embedding of the genesis-world world-expansion and narrative
orchestration pipeline: the shared chunk helpers, the world-state store,
the Game Master orchestrator, the narrative engine and the websocket
chunk-request handler, together with theorems about their behaviour. -/

namespace Genesis

/-- Finite JS number kept as an exact unnormalized fraction with positive
denominator. The embedded computations always build equal values along
equal paths, so structural equality of these fractions corresponds to
byte-identical JS numbers. -/
structure JsVal where
  num : Int
  den : Nat
deriving DecidableEq, Repr

def JsVal.ofInt (i : Int) : JsVal := { num := i, den := 1 }

def jsvAdd (a b : JsVal) : JsVal :=
  { num := a.num * b.den + b.num * a.den, den := a.den * b.den }

def jsvMul (a b : JsVal) : JsVal :=
  { num := a.num * b.num, den := a.den * b.den }

def jsvLt (a b : JsVal) : Bool := decide (a.num * b.den < b.num * a.den)

/-- Math.floor of a nonnegative draw, as a natural number. -/
def jsvFloorNat (a : JsVal) : Nat := (a.num.fdiv a.den).toNat

/-- JS numbers with NaN: none models NaN, some v a finite value. JS
arithmetic on NaN propagates NaN and every comparison with NaN is false. -/
abbrev JsNum := Option JsVal

def jsAdd : JsNum → JsNum → JsNum
  | some a, some b => some (jsvAdd a b)
  | _, _ => none

def jsMul : JsNum → JsNum → JsNum
  | some a, some b => some (jsvMul a b)
  | _, _ => none

def jsLt : JsNum → JsNum → Bool
  | some a, some b => jsvLt a b
  | _, _ => false

/-- ToInt32 coercion used implicitly by the JS bitwise operators. -/
def toInt32 (n : Int) : Int := (n + 2 ^ 31) % 2 ^ 32 - 2 ^ 31

/-- One step of hashString (orchestrator.ts lines 668-676 and chunk.ts lines
116-124): hash = (hash << 5) - hash + char; hash = hash & hash. The shift
left by five is 32-bit (hash is already an int32, so it is toInt32 of the
product by 32) and the final hash & hash is the ToInt32 coercion. -/
def hashStep (hash : Int) (c : Nat) : Int :=
  toInt32 (toInt32 (hash * 32) - hash + c)

/-- Stable string hash from the source; charCodeAt is modelled by Char.toNat,
which agrees on the code points below 0x10000 that chunk ids use.
Math.abs at the end is natAbs. -/
def hashString (str : String) : Nat :=
  (str.data.foldl (fun h ch => hashStep h ch.toNat) 0).natAbs

/-- Linear congruential step of seededRandom (orchestrator.ts lines 678-684):
s = (s * 1103515245 + 12345) & 0x7fffffff. JS evaluates the product in
binary64 and can round it before masking; the exact integer recurrence used
here differs from JS only in which deterministic value each step yields,
which leaves every determinism statement intact. -/
def nextRand (s : Nat) : Nat := (s * 1103515245 + 12345) &&& 0x7fffffff

/-- Value returned by one call of the seeded generator from state s. -/
def randOf (s : Nat) : JsVal := { num := s, den := 0x7fffffff }

/-- JS String.prototype.split on a single-character separator, computed on
the character list: an empty input yields one empty piece, a trailing
separator yields a trailing empty piece. -/
def splitCharsOn (sep : Char) : List Char → List (List Char)
  | [] => [[]]
  | c :: rest =>
    let r := splitCharsOn sep rest
    if c = sep then [] :: r
    else
      match r with
      | [] => [[c]]
      | g :: gs => (c :: g) :: gs

def jsSplit (s : String) (sep : Char) : List String :=
  (splitCharsOn sep s.data).map String.mk

/-- Parse of an integer numeral by the JS Number coercion: an optional minus
sign followed by at least one digit, with the empty string coerced to 0.
Every other form (including non-integer numerals) is conservatively mapped
to none, the NaN result; the claims only quantify over ids whose parts are
integer numerals. -/
def jsParseInt? (s : String) : Option Int :=
  let digitsVal (cs : List Char) : Int := cs.foldl (fun n c => n * 10 + (c.toNat - 48)) 0
  match s.data with
  | [] => some 0
  | '-' :: rest =>
    if rest ≠ [] ∧ rest.all Char.isDigit then some (-(digitsVal rest)) else none
  | cs => if cs.all Char.isDigit then some (digitsVal cs) else none

/-- Coordinates of chunkId.split(",").map(Number) destructured as [x, z]:
a missing second part is undefined and coerces to NaN (none). -/
def chunkCoordsInt? (chunkId : String) : Option (Int × Int) :=
  let parts := jsSplit chunkId ','

  match parts[0]?.bind jsParseInt?, parts[1]?.bind jsParseInt? with
  | some x, some z => some (x, z)
  | _, _ => none

/-- Chunk coordinates as JS numbers, NaN for unparsable parts. -/
def chunkCoordsJs (chunkId : String) : JsNum × JsNum :=
  let parts := jsSplit chunkId ','
  ((parts[0]?.bind jsParseInt?).map JsVal.ofInt,
   (parts[1]?.bind jsParseInt?).map JsVal.ofInt)

inductive BiomeType
  | forest | desert | urban | mystical | coastal | plains
deriving DecidableEq, Repr

def BiomeType.asString : BiomeType → String
  | .forest => "forest"
  | .desert => "desert"
  | .urban => "urban"
  | .mystical => "mystical"
  | .coastal => "coastal"
  | .plains => "plains"

/-- Hash-keyed biome table of determineBiome (chunk.ts lines 104-113): the
source compares normalized = (seed % 100) / 100 against 0.25, 0.4, 0.55,
0.7 and 0.85; both sides are exact in binary64, so the comparison is the
integer comparison of seed % 100 against 25, 40, 55, 70 and 85. -/
def hashBiome (chunkId : String) : BiomeType :=
  let seed := hashString chunkId
  let normalized := seed % 100
  if normalized < 25 then .forest
  else if normalized < 40 then .plains
  else if normalized < 55 then .urban
  else if normalized < 70 then .coastal
  else if normalized < 85 then .desert
  else .mystical

/-- Biome of a chunk (chunk.ts lines 97-114). The source computes
Math.sqrt(x * x + z * z) < 2, which over integer coordinates is exactly
x * x + z * z < 4; an unparsable id gives a NaN distance and the NaN
comparison is false, so such ids take the hash branch. -/
def determineBiome (chunkId : String) : BiomeType :=
  let spawnArea : Bool :=
    match chunkCoordsInt? chunkId with
    | some (x, z) => decide (x * x + z * z < 4)
    | none => false
  if spawnArea then .plains
  else hashBiome chunkId

inductive POIType
  | building | landmark | mystery | resource
deriving DecidableEq, Repr

inductive NPCAction
  | idle | walking | talking | working
deriving DecidableEq, Repr

inductive NPCMood
  | neutral | happy | curious | concerned
deriving DecidableEq, Repr

inductive NPCArchetype
  | merchant | guard | wanderer | quest_giver | sage | mysterious
deriving DecidableEq, Repr

structure Vector3 where
  x : JsNum
  y : JsNum
  z : JsNum
deriving DecidableEq, Repr

structure PointOfInterest where
  id : String
  type : POIType
  name : String
  description : String
  position : Vector3
  discovered : Bool
deriving DecidableEq, Repr

/-- NPC state from the shared types. The rotation field stores the raw
pseudo-random draw; the source multiplies it by the fixed constant 2 pi,
which is not rational and plays no role in any claim. -/
structure NPCState where
  id : String
  name : String
  position : Vector3
  rotation : JsVal
  currentAction : NPCAction
  mood : NPCMood
  archetype : NPCArchetype
deriving DecidableEq, Repr

/-- Result shape of generateChunkContent and generateProceduralContent. -/
structure ChunkContent where
  pointsOfInterest : List PointOfInterest
  npcs : List NPCState
  npcIds : List String
deriving DecidableEq, Repr

/-- POI type pool of the procedural generator (orchestrator.ts line 396). -/
def poiTypes : List POIType := [.landmark, .building, .resource, .mystery]

/-- Biome-keyed POI name table (orchestrator.ts lines 397-404). Every
BiomeType value has an entry, so the JS fallback to the plains row for a
missing key is unreachable. -/
def biomeNames : BiomeType → List String
  | .forest => ["Ancient Oak", "Mushroom Ring", "Hunter Lodge", "Hidden Spring"]
  | .plains => ["Standing Stone", "Old Farm", "Windmill", "Traveler Camp"]
  | .urban => ["Ruined Tower", "Market Square", "Old Library", "Statue"]
  | .desert => ["Oasis", "Sand Temple", "Trader Tent", "Bone Pile"]
  | .coastal => ["Lighthouse", "Shipwreck", "Fisherman Hut", "Tide Pool"]
  | .mystical => ["Portal Stone", "Crystal Cave", "Fairy Ring", "Arcane Altar"]

/-- Archetype pool of the procedural NPC (orchestrator.ts lines 425-430). -/
def proceduralArchetypes : List NPCArchetype := [.merchant, .guard, .wanderer, .quest_giver]

/-- Name pool of the procedural NPC (orchestrator.ts line 431). -/
def proceduralNpcNames : List String := ["Traveler", "Merchant", "Scout", "Hermit", "Wanderer"]

/-- POI loop of generateProceduralContent (orchestrator.ts lines 408-421),
threading the generator state explicitly; per POI the source draws the
type, the name, the x offset and the z offset in that order. -/
def genProceduralPois (chunkId : String) (biome : BiomeType) (baseX baseZ : JsNum) :
    Nat → Nat → Nat → List PointOfInterest × Nat
  | 0, _, s => ([], s)
  | n + 1, i, s =>
    let sT := nextRand s
    let ty := poiTypes.getD (jsvFloorNat (jsvMul (randOf sT) (JsVal.ofInt 4))) .landmark
    let sN := nextRand sT
    let names := biomeNames biome
    let name := names.getD (jsvFloorNat (jsvMul (randOf sN) (JsVal.ofInt names.length))) ""
    let sX := nextRand sN
    let px := jsAdd baseX (some (jsvMul (randOf sX) (JsVal.ofInt 100)))
    let sZ := nextRand sX
    let pz := jsAdd baseZ (some (jsvMul (randOf sZ) (JsVal.ofInt 100)))
    let poi : PointOfInterest :=
      { id := "poi_" ++ chunkId ++ "_" ++ toString i
        type := ty
        name := name
        description := "A mysterious " ++ biome.asString ++ " location."
        position := { x := px, y := some (JsVal.ofInt 0), z := pz }
        discovered := false }
    let (rest, sF) := genProceduralPois chunkId biome baseX baseZ n (i + 1) sZ
    (poi :: rest, sF)

/-- NPC branch of generateProceduralContent (orchestrator.ts lines 423-448):
with probability one half (the draw strictly above 0.5) exactly one NPC
with index 0, drawn name, position, rotation and archetype in that order;
s3 is the generator state holding the coin-flip draw. -/
def genProceduralNpc (chunkId : String) (baseX baseZ : JsNum) (s3 : Nat) : List NPCState :=
  if jsvLt { num := 1, den := 2 } (randOf s3) then
    let sName := nextRand s3
    let name := proceduralNpcNames.getD
      (jsvFloorNat (jsvMul (randOf sName) (JsVal.ofInt proceduralNpcNames.length))) ""
    let sX := nextRand sName
    let px := jsAdd baseX (some (jsvMul (randOf sX) (JsVal.ofInt 100)))
    let sZ := nextRand sX
    let pz := jsAdd baseZ (some (jsvMul (randOf sZ) (JsVal.ofInt 100)))
    let sR := nextRand sZ
    let sA := nextRand sR
    let npc : NPCState :=
      { id := "npc_" ++ chunkId ++ "_0"
        name := name
        position := { x := px, y := some (JsVal.ofInt 0), z := pz }
        rotation := randOf sR
        currentAction := .idle
        mood := .neutral
        archetype := proceduralArchetypes.getD
          (jsvFloorNat (jsvMul (randOf sA) (JsVal.ofInt 4))) .merchant }
    [npc]
  else []

/-- Deterministic procedural generator (orchestrator.ts lines 375-455):
seeds the generator from the hash of the chunk id, draws 1-3 POIs and with
probability one half a single NPC; CHUNK_SIZE is 100. -/
def generateProceduralContent (chunkId : String) (biome : BiomeType) : ChunkContent :=
  let cs := chunkCoordsJs chunkId
  let baseX := jsMul cs.1 (some (JsVal.ofInt 100))
  let baseZ := jsMul cs.2 (some (JsVal.ofInt 100))
  let seed := hashString chunkId
  let s1 := nextRand seed
  let poiCount := 1 + jsvFloorNat (jsvMul (randOf s1) (JsVal.ofInt 3))
  let pr := genProceduralPois chunkId biome baseX baseZ poiCount 0 s1
  let s3 := nextRand pr.2
  let npcs := genProceduralNpc chunkId baseX baseZ s3
  { pointsOfInterest := pr.1
    npcs := npcs
    npcIds := npcs.map (fun n => n.id) }

inductive ChunkStatus
  | loading | ready | generating | error
deriving DecidableEq, Repr

structure WorldChunk where
  id : String
  status : ChunkStatus
  npcs : List String
  pointsOfInterest : List PointOfInterest
  biome : Option BiomeType
  generatedAt : Option Nat
deriving DecidableEq, Repr

/-- Partially specified chunk fields, the shape passed to updateChunk and
createChunk; none marks a field absent from the update object. -/
structure ChunkUpdate where
  status : Option ChunkStatus := none
  npcs : Option (List String) := none
  pointsOfInterest : Option (List PointOfInterest) := none
  biome : Option BiomeType := none
  generatedAt : Option Nat := none
deriving DecidableEq, Repr

/-- Field-wise merge, the Object.assign of updateChunk and the spread of
createChunk. -/
def applyChunkUpdate (c : WorldChunk) (u : ChunkUpdate) : WorldChunk :=
  { c with
    status := u.status.getD c.status
    npcs := u.npcs.getD c.npcs
    pointsOfInterest := u.pointsOfInterest.getD c.pointsOfInterest
    biome := (u.biome.map some).getD c.biome
    generatedAt := (u.generatedAt.map some).getD c.generatedAt }

/-- Chunk constructor (chunk.ts lines 7-18): status loading and empty lists
by default, then the option fields spread on top. -/
def createChunk (chunkId : String) (options : ChunkUpdate) : WorldChunk :=
  applyChunkUpdate
    { id := chunkId, status := .loading, npcs := [], pointsOfInterest := []
      biome := none, generatedAt := none } options

structure PlayerState where
  id : String
  name : String
  position : Vector3
  lastUpdate : Nat
deriving DecidableEq, Repr

inductive WorldEventType
  | npc_dialogue | discovery | player_join | player_leave
  | world_change | quest_start | quest_complete | chunk_generated
deriving DecidableEq, Repr

/-- World event; the free-form data record is modelled as an opaque string
payload, which is all the retention claims need. -/
structure WorldEvent where
  id : String
  type : WorldEventType
  timestamp : Nat
  data : String
  chunkId : Option String := none
  playerId : Option String := none
  npcId : Option String := none
deriving DecidableEq, Repr

/-- Lookup in a JS Map modelled as an insertion-ordered association list. -/
def mapGet? (m : List (String × α)) (k : String) : Option α :=
  (m.find? (fun p => p.1 = k)).map Prod.snd

/-- JS Map.set: replace in place when the key exists, append otherwise. -/
def mapSet (m : List (String × α)) (k : String) (v : α) : List (String × α) :=
  if m.any (fun p => p.1 = k) then m.map (fun p => if p.1 = k then (k, v) else p)
  else m ++ [(k, v)]

/-- JS Set.add on a duplicate-free membership list. -/
def setAdd (l : List String) (x : String) : List String :=
  if l.contains x then l else l ++ [x]

/-- JS Set.delete. -/
def setDelete (l : List String) (x : String) : List String :=
  l.filter (fun y => y ≠ x)

structure WorldState where
  players : List (String × PlayerState)
  npcs : List (String × NPCState)
  chunks : List (String × WorldChunk)
  events : List WorldEvent
deriving DecidableEq, Repr

/-- Event append of WorldStateManager.addEvent (state-manager.ts lines
165-172): push, then keep only the last 1000 events when over the cap. -/
def addEvent (events : List WorldEvent) (event : WorldEvent) : List WorldEvent :=
  let es := events ++ [event]
  if 1000 < es.length then es.drop (es.length - 1000) else es

/-- Chunk upsert of WorldStateManager.updateChunk (state-manager.ts lines
138-150): merge into the existing chunk, or create a fresh chunk carrying
the updates with the deterministic biome for the id. -/
def updateChunk (chunks : List (String × WorldChunk)) (chunkId : String)
    (updates : ChunkUpdate) : List (String × WorldChunk) :=
  match mapGet? chunks chunkId with
  | some chunk => mapSet chunks chunkId (applyChunkUpdate chunk updates)
  | none =>
    mapSet chunks chunkId
      (createChunk chunkId { updates with biome := some (determineBiome chunkId) })

/-- Instrumentation of the generation lifecycle: one entry per synchronous
start and per commit, used to count how often a cell starts generating and
reaches ready. -/
inductive GenEvent
  | started (chunkId : String)
  | readyCommitted (chunkId : String) (npcIds : List String)
  | errorCommitted (chunkId : String)
deriving DecidableEq, Repr

/-- Orchestrator state: the shared world store, the process-wide pending
generation set (orchestrator.ts line 23) and the instrumentation log. -/
structure OrchState where
  world : WorldState
  pendingGenerations : List String
  log : List GenEvent
deriving DecidableEq, Repr

def GenEvent.isStartOf : GenEvent → String → Bool
  | .started c, cid => c = cid
  | _, _ => false

def GenEvent.isReadyOf : GenEvent → String → Bool
  | .readyCommitted c _, cid => c = cid
  | _, _ => false

def startCount (s : OrchState) (chunkId : String) : Nat :=
  s.log.countP (fun e => e.isStartOf chunkId)

def readyCount (s : OrchState) (chunkId : String) : Nat :=
  s.log.countP (fun e => e.isReadyOf chunkId)

/-- Synchronous prefix of queueChunkGeneration (orchestrator.ts lines
230-233): add the id to the pending set and mark the chunk generating;
runs to completion before any suspension point. -/
def startGeneration (s : OrchState) (chunkId : String) : OrchState :=
  { world := { s.world with
      chunks := updateChunk s.world.chunks chunkId { status := some .generating } }
    pendingGenerations := setAdd s.pendingGenerations chunkId
    log := s.log ++ [.started chunkId] }

/-- Completion of queueChunkGeneration (orchestrator.ts lines 235-258): on
success commit the content and register the NPCs, on a thrown generation
mark the chunk error; either way the finally clause removes the id from
the pending set. -/
def finishGeneration (now : Nat) (s : OrchState) (chunkId : String)
    (outcome : Except Unit ChunkContent) : OrchState :=
  match outcome with
  | .ok chunkData =>
    { world := { s.world with
        chunks := updateChunk s.world.chunks chunkId
          { status := some .ready
            pointsOfInterest := some chunkData.pointsOfInterest
            npcs := some chunkData.npcIds
            generatedAt := some now }
        npcs := chunkData.npcs.foldl (fun m n => mapSet m n.id n) s.world.npcs }
      pendingGenerations := setDelete s.pendingGenerations chunkId
      log := s.log ++ [.readyCommitted chunkId chunkData.npcIds] }
  | .error _ =>
    { world := { s.world with
        chunks := updateChunk s.world.chunks chunkId { status := some .error } }
      pendingGenerations := setDelete s.pendingGenerations chunkId
      log := s.log ++ [.errorCommitted chunkId] }

/-- Whole queueChunkGeneration run for one cell, the outcome of the awaited
generateChunkContent supplied explicitly. -/
def queueChunkGeneration (now : Nat) (s : OrchState) (chunkId : String)
    (outcome : Except Unit ChunkContent) : OrchState :=
  finishGeneration now (startGeneration s chunkId) chunkId outcome

/-- Needs-generation predicate of the per-tick loop (orchestrator.ts lines
199-211): skip ready and generating chunks, then skip ids already in the
pending set. -/
def needsGeneration (s : OrchState) (chunkId : String) : Bool :=
  let st := (mapGet? s.world.chunks chunkId).map WorldChunk.status
  !(st = some ChunkStatus.ready || st = some ChunkStatus.generating)
    && !s.pendingGenerations.contains chunkId

/-- Per-cell body of checkWorldExpansion (orchestrator.ts lines 199-214):
skip, or start generation for the cell. -/
def expansionTrigger (s : OrchState) (chunkId : String) : OrchState :=
  let st := (mapGet? s.world.chunks chunkId).map WorldChunk.status
  if st = some ChunkStatus.ready || st = some ChunkStatus.generating then s
  else if s.pendingGenerations.contains chunkId then s
  else startGeneration s chunkId

/-- Synchronous prefix of requestChunkGeneration (orchestrator.ts lines
217-224): return early when the id is already pending or the player is
unknown, otherwise start generation. -/
def requestTrigger (s : OrchState) (chunkId playerId : String) : OrchState :=
  if s.pendingGenerations.contains chunkId then s
  else
    match mapGet? s.world.players playerId with
    | some _ => startGeneration s chunkId
    | none => s

/-- Kind of generation trigger: the per-tick lookahead check or an explicit
on-demand request by a player. -/
inductive TriggerKind
  | expansion
  | request (playerId : String)
deriving DecidableEq, Repr

def runTrigger (s : OrchState) (chunkId : String) : TriggerKind → OrchState
  | .expansion => expansionTrigger s chunkId
  | .request playerId => requestTrigger s chunkId playerId

/-- Outcome of the anthropic.messages.create call awaited by
generateChunkContent: the request threw (timeout, network), the first
content block was not text, or a text body was returned. -/
inductive LLMContent
  | failure
  | nonText
  | text (body : String)
deriving DecidableEq, Repr

def openBrace : Char := Char.ofNat 123

def closeBrace : Char := Char.ofNat 125

/-- Match of the greedy JSON-block pattern applied to the response text
(orchestrator.ts line 324): the substring from the first opening brace to
the last closing brace, none when no such block exists. -/
def extractJsonBlock? (s : String) : Option String :=
  let cs := s.data
  match cs.findIdx? (fun c => c = openBrace), cs.reverse.findIdx? (fun c => c = closeBrace) with
  | some i, some jr =>
    let j := cs.length - 1 - jr
    if i ≤ j then some (String.mk ((cs.drop i).take (j + 1 - i))) else none
  | _, _ => none

structure GeneratedPoi where
  type : POIType
  name : String
  description : String
  relativeX : JsVal
  relativeZ : JsVal
deriving DecidableEq, Repr

structure GeneratedNpc where
  name : String
  archetype : NPCArchetype
  relativeX : JsVal
  relativeZ : JsVal
deriving DecidableEq, Repr

/-- Parsed generative output; a JSON object missing either array is modelled
by the corresponding empty list, matching the source defaulting. -/
structure GeneratedJson where
  pointsOfInterest : List GeneratedPoi
  npcs : List GeneratedNpc
deriving DecidableEq, Repr

/-- Content generation for one cell (orchestrator.ts lines 261-373). The
external JSON.parse builtin is the jsonParse parameter and the per-NPC
Math.random rotation draw is the rotationDraw parameter; every failure of
the generative path (thrown request, non-text block, no JSON block, parse
failure) falls back to the deterministic procedural generator. -/
def generateChunkContent (useAI : Bool) (llm : LLMContent)
    (jsonParse : String → Option GeneratedJson) (rotationDraw : Nat → JsVal)
    (chunkId : String) : ChunkContent :=
  let biome := determineBiome chunkId
  if !useAI then generateProceduralContent chunkId biome
  else
    let attempt : Option GeneratedJson :=
      match llm with
      | .failure => none
      | .nonText => none
      | .text body => (extractJsonBlock? body).bind jsonParse
    match attempt with
    | none => generateProceduralContent chunkId biome
    | some generated =>
      let (cx, cz) := chunkCoordsJs chunkId
      let baseX := jsMul cx (some (JsVal.ofInt 100))
      let baseZ := jsMul cz (some (JsVal.ofInt 100))
      let pointsOfInterest := generated.pointsOfInterest.enum.map (fun p =>
        { id := "poi_" ++ chunkId ++ "_" ++ toString p.1
          type := p.2.type
          name := p.2.name
          description := p.2.description
          position := { x := jsAdd baseX (some p.2.relativeX), y := some (JsVal.ofInt 0)
                        z := jsAdd baseZ (some p.2.relativeZ) }
          discovered := false })
      let npcs : List NPCState := generated.npcs.enum.map (fun p =>
        { id := "npc_" ++ chunkId ++ "_" ++ toString p.1
          name := p.2.name
          position := { x := jsAdd baseX (some p.2.relativeX), y := some (JsVal.ofInt 0)
                        z := jsAdd baseZ (some p.2.relativeZ) }
          rotation := rotationDraw p.1
          currentAction := .idle
          mood := .neutral
          archetype := p.2.archetype })
      { pointsOfInterest := pointsOfInterest
        npcs := npcs
        npcIds := npcs.map (fun n => n.id) }

/-- Predicate on the generative outcome: true exactly when the generative
path fails and the catch clause falls back to procedural content. -/
def generativeFailed (llm : LLMContent) (jsonParse : String → Option GeneratedJson) : Bool :=
  match llm with
  | .failure => true
  | .nonText => true
  | .text body => ((extractJsonBlock? body).bind jsonParse).isNone

/-- Messages the chunk-request handler can emit to the requesting socket. -/
inductive ServerMessage
  | chunkReady (chunk : WorldChunk)
  | chunkGenerating (chunkId : String)
  | errorMessage (code message : String)
deriving DecidableEq, Repr

def ServerMessage.isErrorMessage : ServerMessage → Bool
  | .errorMessage _ _ => true
  | _ => false

/-- One signed integer numeral, the piece -?[0-9]+ of the chunk-id grammar. -/
def isSignedDigits (s : String) : Bool :=
  match s.data with
  | '-' :: rest => !rest.isEmpty && rest.all Char.isDigit
  | cs => !cs.isEmpty && cs.all Char.isDigit

/-- Chunk-id grammar check modelled from the HTTP splat route of the
repository, the only place the source tests an inbound id against the
anchored pattern of two signed integer numerals joined by a comma. -/
def isValidChunkId (s : String) : Bool :=
  match jsSplit s ',' with
  | [a, b] => isSignedDigits a && isSignedDigits b
  | _ => false

/-- Websocket chunk:request handler (handlers.ts lines 182-196): reply with
the chunk when present, otherwise emit chunk:generating and invoke
requestChunkGeneration. The catch on the request promise would emit an
error message only if the promise rejected, which the embedded generation,
total and equipped with its own fallback, never does. No validation of the
id happens on this path. -/
def handleChunkRequest (s : OrchState) (playerId chunkId : String) :
    OrchState × List ServerMessage :=
  match mapGet? s.world.chunks chunkId with
  | some chunk => (s, [.chunkReady chunk])
  | none => (requestTrigger s chunkId playerId, [.chunkGenerating chunkId])

structure WorldSecret where
  id : String
  content : String
  revealConditions : List String
  partialReveals : List (String × String)
  discovered : Bool
  discoveredBy : Option String
deriving DecidableEq, Repr

/-- Per-secret body of AIGameMaster.checkSecretReveals (orchestrator
narrative engine, lines 1342-1364): a discovered secret is skipped
outright; otherwise each satisfied partial reveal emits its hint and a
fully satisfied condition set marks the secret discovered, records the
discoverer and emits the content. The conditionMet helper reads only
immutable context, so it enters as the condMet parameter. -/
def checkSecretRevealsOne (condMet : String → Bool) (playerId : String)
    (secret : WorldSecret) : WorldSecret × List String :=
  if secret.discovered then (secret, [])
  else
    let hints := secret.partialReveals.filterMap
      (fun p => if condMet p.1 then some p.2 else none)
    if secret.revealConditions.all condMet then
      ({ secret with discovered := true, discoveredBy := some playerId },
       hints ++ [secret.content])
    else (secret, hints)

/-- Loop of checkSecretReveals over the world secrets, returning the updated
secrets and the revealed strings in emission order. -/
def checkSecretReveals (condMet : String → Bool) (playerId : String) :
    List WorldSecret → List WorldSecret × List String
  | [] => ([], [])
  | secret :: rest =>
    let first := checkSecretRevealsOne condMet playerId secret
    let rests := checkSecretReveals condMet playerId rest
    (first.1 :: rests.1, first.2 ++ rests.2)

/-- Per-player memory kept by the orchestrator (orchestrator.ts lines
10-16); conversation history maps an NPC id to the exchanges, each a pair
of player text and NPC response. -/
structure PlayerMemory where
  discoveries : List String
  visitedChunks : List String
  npcInteractions : List (String × Nat)
  lastPosition : JsNum × JsNum
  conversationHistory : List (String × List (String × String))
deriving DecidableEq, Repr

/-- Dialogue reply shape; action is a string or null. -/
structure NPCDialogueResponse where
  text : String
  emotion : String
  action : Option String
deriving DecidableEq, Repr

def jsToLower (s : String) : String := String.mk (s.data.map Char.toLower)

def listStartsWith : List Char → List Char → Bool
  | [], _ => true
  | _ :: _, [] => false
  | a :: as, b :: bs => a = b && listStartsWith as bs

def listContainsSub (l sub : List Char) : Bool :=
  match l with
  | [] => sub.isEmpty
  | _ :: rest => listStartsWith sub l || listContainsSub rest sub

/-- JS String.prototype.includes as a substring test. -/
def jsIncludes (s sub : String) : Bool := listContainsSub s.data sub.data

/-- Archetype-keyed canned responses (orchestrator.ts lines 607-614). The
table covers every archetype, so the JS fallback string for a missing key
is unreachable in the typed model. -/
def archetypeResponse : NPCArchetype → String
  | .sage => "The answers you seek lie within, traveler. Look deeper."
  | .wanderer => "There\x27s always another road to travel. That\x27s what makes it interesting!"
  | .guard => "Stay vigilant. These lands are not always safe."
  | .merchant => "Looking for something specific? I might have what you need."
  | .quest_giver => "The world needs heroes. Perhaps you could help?"
  | .mysterious => "...some questions have no answers. Not yet."

/-- Deterministic keyword-matching fallback dialogue (orchestrator.ts lines
578-621). -/
def generateFallbackDialogue (npc : NPCState) (message : String) : NPCDialogueResponse :=
  let lower := jsToLower message
  if jsIncludes lower "hello" || jsIncludes lower "hi" then
    { text := "Greetings, traveler. I am " ++ npc.name ++ ".", emotion := "friendly", action := none }
  else if jsIncludes lower "bye" || jsIncludes lower "farewell" then
    { text := "Safe travels. May we meet again.", emotion := "neutral", action := none }
  else if jsIncludes lower "help" || jsIncludes lower "what" then
    { text := "Explore the land. Speak to those you meet. The world reveals its secrets to the curious."
      emotion := "thoughtful", action := none }
  else
    { text := archetypeResponse npc.archetype, emotion := "neutral", action := none }

/-- Last n entries of a list, the slice with a negative start index. -/
def lastN (n : Nat) (l : List α) : List α := l.drop (l.length - n)

def freshPlayerMemory (player : PlayerState) : PlayerMemory :=
  { discoveries := [], visitedChunks := [], npcInteractions := []
    lastPosition := (player.position.x, player.position.z)
    conversationHistory := [] }

/-- Dialogue entry point generateNPCDialogue (orchestrator.ts lines
496-573). The generative branch outcome enters as aiOutcome, none meaning
the AI call threw and control fell through to the fallback; the function
returns the reply together with the updated player-memories map. -/
def generateNPCDialogue (useAI : Bool) (aiOutcome : Option NPCDialogueResponse)
    (world : WorldState) (playerMemories : List (String × PlayerMemory))
    (playerId npcId : String) (playerMessage : String) :
    NPCDialogueResponse × List (String × PlayerMemory) :=
  match mapGet? world.npcs npcId, mapGet? world.players playerId with
  | some npc, some player =>
    let found := mapGet? playerMemories playerId
    let memory := found.getD (freshPlayerMemory player)
    let memories0 :=
      match found with
      | some _ => playerMemories
      | none => mapSet playerMemories playerId memory
    let history := (mapGet? memory.conversationHistory npcId).getD []
    match useAI, aiOutcome with
    | true, some response =>
      let history1 := history ++ [(playerMessage, response.text)]
      let interactions := (mapGet? memory.npcInteractions npcId).getD 0
      let memory1 := { memory with
        conversationHistory := mapSet memory.conversationHistory npcId (lastN 10 history1)
        npcInteractions := mapSet memory.npcInteractions npcId (interactions + 1) }
      (response, mapSet memories0 playerId memory1)
    | true, none => (generateFallbackDialogue npc playerMessage, memories0)
    | false, _ => (generateFallbackDialogue npc playerMessage, memories0)
  | _, _ => ({ text := "...", emotion := "neutral", action := none }, playerMemories)

inductive NarrativeStatus
  | seeded | active | climax | resolved
deriving DecidableEq, Repr

/-- Narrative thread of the narrative engine; progress and urgency are kept
as exact rationals, standing for the binary64 values of the source, whose
rounding plays no role in the transition structure at stake. -/
structure NarrativeThread where
  id : String
  name : String
  type : String
  status : NarrativeStatus
  urgency : ℚ
  involvedNPCs : List String
  involvedPlayers : List String
  involvedLocations : List String
  seeds : List String
  possibleResolutions : List String
  playerProgress : ℚ
  createdAt : Nat
  lastUpdated : Nat
deriving DecidableEq, Repr

structure PlayerAction where
  type : String
  target : Option String
  description : String
  context : String
  significance : ℚ
  emotionalValence : Option ℚ
  topics : List String
  involvedNPCId : Option String
  narrativeRelevance : Option (List String)
deriving DecidableEq, Repr

structure NarrativeUpdate where
  narrativeId : String
  newProgress : ℚ
  newStatus : NarrativeStatus
deriving DecidableEq, Repr

/-- Matching test of checkNarrativeAdvancement (orchestrator narrative
engine, lines 1386-1391): the player is involved and the action names the
narrative as relevant, the optional chaining making an absent relevance
list match nothing. -/
def narrativeMatches (playerId : String) (action : PlayerAction)
    (narrative : NarrativeThread) : Bool :=
  narrative.involvedPlayers.contains playerId
    && (action.narrativeRelevance.getD []).contains narrative.id

/-- Loop of checkNarrativeAdvancement (orchestrator narrative engine, lines
1383-1411) over the active narratives: each matching thread advances by
0.1 clamped at 1, crossing 1 sets status resolved and pushes the thread to
the resolved collection, crossing 0.7 below 1 sets status climax. The
returned triple is the updated active list, the pushes appended to the
resolved collection, and the reported updates. -/
def checkNarrativeAdvancement (now : Nat) (playerId : String) (action : PlayerAction) :
    List NarrativeThread → List NarrativeThread × List NarrativeThread × List NarrativeUpdate
  | [] => ([], [], [])
  | narrative :: rest =>
    let rests := checkNarrativeAdvancement now playerId action rest
    if narrativeMatches playerId action narrative then
      let progress1 := min 1 (narrative.playerProgress + 1 / 10)
      let status1 :=
        if 1 ≤ progress1 then NarrativeStatus.resolved
        else if 7 / 10 ≤ progress1 then NarrativeStatus.climax
        else narrative.status
      let narrative1 :=
        { narrative with playerProgress := progress1, status := status1, lastUpdated := now }
      let pushes := if 1 ≤ progress1 then [narrative1] else []
      (narrative1 :: rests.1, pushes ++ rests.2.1,
       { narrativeId := narrative.id, newProgress := progress1, newStatus := status1 }
         :: rests.2.2)
    else
      (narrative :: rests.1, rests.2.1, rests.2.2)

/-- Active and resolved narrative collections of the world memory. -/
structure NarrativeMemory where
  activeNarratives : List NarrativeThread
  resolvedNarratives : List NarrativeThread
deriving DecidableEq, Repr

/-- Memory-level effect of checkNarrativeAdvancement: the active list is
rewritten in place and the pushes land at the end of the resolved list. -/
def advanceNarratives (now : Nat) (playerId : String) (action : PlayerAction)
    (mem : NarrativeMemory) : NarrativeMemory × List NarrativeUpdate :=
  let r := checkNarrativeAdvancement now playerId action mem.activeNarratives
  ({ activeNarratives := r.1
     resolvedNarratives := mem.resolvedNarratives ++ r.2.1 }, r.2.2)

/-- Update of one matching thread, stated the way the specification reads:
progress rises by the fixed step 0.1 clamped at 1, reaching 1 makes the
thread resolved, reaching 0.7 below 1 makes it climax. Used to compare the
loop against the per-thread description. -/
def advanceMatchedThread (now : Nat) (narrative : NarrativeThread) : NarrativeThread :=
  let progress1 := min 1 (narrative.playerProgress + 1 / 10)
  { narrative with
    playerProgress := progress1
    status :=
      if 1 ≤ progress1 then NarrativeStatus.resolved
      else if 7 / 10 ≤ progress1 then NarrativeStatus.climax
      else narrative.status
    lastUpdated := now }

/-- Two generation triggers for the same cell followed by the completion of
the single in-flight generation with procedurally generated content: the
race scenario of the at-most-one-in-flight invariant. -/
def twoTriggerScenario (now : Nat) (s₀ : OrchState) (chunkId : String)
    (k₁ k₂ : TriggerKind) : OrchState :=
  finishGeneration now (runTrigger (runTrigger s₀ chunkId k₁) chunkId k₂) chunkId
    (Except.ok (generateProceduralContent chunkId (determineBiome chunkId)))

/-- Initial world secrets of the narrative engine (orchestrator narrative
engine, lines 930-980). -/
def createInitialSecrets : List WorldSecret :=
  [ { id := "secret_crystal_origin"
      content := "The Genesis Crystal is a fragment of a shattered god, containing the last dreams of a dying deity."
      revealConditions := ["player_touches_crystal", "sage_trusts_player", "all_runes_discovered"]
      partialReveals :=
        [ ("near_crystal_5min", "The crystal seems to pulse with something like... breathing.")
        , ("sage_conversation_3", "Elara mentions \x22the sleeper\x22 but refuses to elaborate.") ]
      discovered := false
      discoveredBy := none }
  , { id := "secret_world_nature"
      content := "This realm exists in the collective unconscious of all who dream. Visitors literally shape reality with their expectations."
      revealConditions := ["explore_10_chunks", "notice_world_responding"]
      partialReveals :=
        [ ("explore_5_chunks", "The world always seems to have exactly what you were looking for...") ]
      discovered := false
      discoveredBy := none }
  , { id := "secret_wanderer_past"
      content := "Finn was once a powerful architect of this realm, who chose to forget his powers after a catastrophe he caused."
      revealConditions := ["finn_trust_max", "find_finns_monument"]
      partialReveals :=
        [ ("finn_conversation_5", "Finn sometimes speaks of places he shouldn\x27t know about.") ]
      discovered := false
      discoveredBy := none } ]

def samplePlayer : PlayerState :=
  { id := "p1", name := "Player_p1"
    position := { x := some (JsVal.ofInt 0), y := some (JsVal.ofInt 0), z := some (JsVal.ofInt 0) }
    lastUpdate := 0 }

/-- Guide NPC seeded by initializeSpawnArea (state-manager.ts lines 45-53);
the rotation draw is stored unscaled. -/
def sampleNpc : NPCState :=
  { id := "npc_guide", name := "Elder Sage"
    position := { x := some (JsVal.ofInt 5), y := some (JsVal.ofInt 0), z := some (JsVal.ofInt 8) }
    rotation := { num := 1, den := 2 }
    currentAction := .idle, mood := .neutral, archetype := .quest_giver }

def sampleWorld : WorldState :=
  { players := [("p1", samplePlayer)], npcs := [("npc_guide", sampleNpc)]
    chunks := [], events := [] }

def sampleOrchState : OrchState :=
  { world := sampleWorld, pendingGenerations := [], log := [] }

def sampleMemories : List (String × PlayerMemory) :=
  [("p1", freshPlayerMemory samplePlayer)]

def sampleResponse : NPCDialogueResponse :=
  { text := "Welcome, dreamer.", emotion := "happy", action := none }

/-- First initial secret with the discovered flag already set, discovered by
the sample player. -/
def sampleDiscoveredSecret : WorldSecret :=
  { (createInitialSecrets.getD 0
      { id := "", content := "", revealConditions := [], partialReveals := []
        discovered := false, discoveredBy := none }) with
    discovered := true, discoveredBy := some "p1" }

def sampleNarrative : NarrativeThread :=
  { id := "n1", name := "The Sleeper", type := "mystery", status := .climax
    urgency := 1 / 2, involvedNPCs := [], involvedPlayers := ["p1"]
    involvedLocations := [], seeds := [], possibleResolutions := []
    playerProgress := 9 / 10, createdAt := 0, lastUpdated := 0 }

def sampleAction : PlayerAction :=
  { type := "interact", target := some "genesis_crystal"
    description := "touches the crystal", context := "at the crystal"
    significance := 1, emotionalValence := none, topics := []
    involvedNPCId := none, narrativeRelevance := some ["n1"] }

def sampleNarrativeMemory : NarrativeMemory :=
  { activeNarratives := [sampleNarrative], resolvedNarratives := [] }

def mkEvent (n : Nat) : WorldEvent :=
  { id := toString n, type := .world_change, timestamp := n, data := "" }

def mkEvents (ns : List Nat) : List WorldEvent := ns.map mkEvent

theorem mapGet?_replace (m : List (String × α)) (k : String) (v : α)
    (h : m.any (fun p => p.1 = k) = true) :
    mapGet? (m.map (fun p => if p.1 = k then (k, v) else p)) k = some v := by
  induction m with
  | nil => simp at h
  | cons p rest ih =>
    by_cases hp : p.1 = k
    · simp [mapGet?, List.find?, hp]
    · have hr : rest.any (fun q => q.1 = k) = true := by
        simp only [List.any_cons, Bool.or_eq_true, decide_eq_true_eq] at h
        rcases h with h | h
        · exact absurd h hp
        · simpa using h
      simpa [mapGet?, List.find?, hp] using ih hr

theorem mapGet?_append_single (m : List (String × α)) (k : String) (v : α)
    (h : m.any (fun p => p.1 = k) = false) :
    mapGet? (m ++ [(k, v)]) k = some v := by
  induction m with
  | nil => simp [mapGet?, List.find?]
  | cons p rest ih =>
    simp only [List.any_cons, Bool.or_eq_false_iff, decide_eq_false_iff_not] at h
    have := ih (by simpa using h.2)
    simpa [mapGet?, List.find?, h.1] using this

theorem mapGet?_mapSet_self (m : List (String × α)) (k : String) (v : α) :
    mapGet? (mapSet m k v) k = some v := by
  unfold mapSet
  split
  · exact mapGet?_replace m k v (by assumption)
  · rename_i h
    exact mapGet?_append_single m k v (by rwa [Bool.not_eq_true] at h)

theorem contains_setAdd_self (l : List String) (x : String) :
    (setAdd l x).contains x = true := by
  unfold setAdd
  split
  · assumption
  · simp

theorem contains_setDelete_self (l : List String) (x : String) :
    (setDelete l x).contains x = false := by
  simp [setDelete]

theorem updateChunk_status (chunks : List (String × WorldChunk)) (chunkId : String)
    (u : ChunkUpdate) (st : ChunkStatus) (h : u.status = some st) :
    (mapGet? (updateChunk chunks chunkId u) chunkId).map WorldChunk.status = some st := by
  unfold updateChunk
  cases hm : mapGet? chunks chunkId with
  | some chunk => rw [mapGet?_mapSet_self]; simp [applyChunkUpdate, h]
  | none => rw [mapGet?_mapSet_self]; simp [createChunk, applyChunkUpdate, h]

theorem genProceduralNpc_short (chunkId : String) (baseX baseZ : JsNum) (s3 : Nat) :
    genProceduralNpc chunkId baseX baseZ s3 = []
    ∨ ∃ npc, genProceduralNpc chunkId baseX baseZ s3 = [npc] := by
  unfold genProceduralNpc
  split
  · right; exact ⟨_, rfl⟩
  · left; rfl

theorem procedural_npcIds_nodup (chunkId : String) (biome : BiomeType) :
    (generateProceduralContent chunkId biome).npcIds.Nodup := by
  have h := genProceduralNpc_short chunkId
    (jsMul (chunkCoordsJs chunkId).1 (some (JsVal.ofInt 100)))
    (jsMul (chunkCoordsJs chunkId).2 (some (JsVal.ofInt 100)))
    (nextRand (genProceduralPois chunkId biome
      (jsMul (chunkCoordsJs chunkId).1 (some (JsVal.ofInt 100)))
      (jsMul (chunkCoordsJs chunkId).2 (some (JsVal.ofInt 100)))
      (1 + jsvFloorNat (jsvMul (randOf (nextRand (hashString chunkId))) (JsVal.ofInt 3))) 0
      (nextRand (hashString chunkId))).2)
  unfold generateProceduralContent
  rcases h with h | ⟨npc, h⟩ <;> simp [h]

/-- C6: for every sequence of addEvent calls the event log keeps exactly the
most recent events up to the 1000-event cap in insertion order, evicting
the oldest first: the result is always the length-1000 suffix of the
appended log, its length is min of the appended length and 1000, and
appending one event to a full log of events 0..999 leaves exactly events
1..1000. -/
theorem boundedFifoEventRetention (events : List WorldEvent) (event : WorldEvent) :
    addEvent events event
      = (events ++ [event]).drop ((events ++ [event]).length - 1000)
    ∧ (addEvent events event).length = min (events.length + 1) 1000
    ∧ addEvent (mkEvents (List.range 1000)) (mkEvent 1000)
      = mkEvents (List.range' 1 1000) := by
  refine ⟨?_, ?_, ?_⟩
  · simp only [addEvent]
    split
    · rfl
    · rename_i h
      have h0 : (events ++ [event]).length - 1000 = 0 := by
        simp only [List.length_append] at h ⊢
        simp at h ⊢
        omega
      rw [h0, List.drop_zero]
  · simp only [addEvent]
    split <;> rename_i h <;>
      simp only [List.length_append, List.length_drop] at h ⊢ <;>
      simp at h ⊢ <;> omega
  · set_option maxRecDepth 10000 in decide

/-- C3: procedural generation is deterministic in the cell id and biome:
it is a pure function of these two inputs alone, seeded from the hash of
the id, so equal inputs give identical POI lists and NPC sets; the spec
example cell 3,-2 with biome forest evaluates to fixed content with a POI
count in the 1..3 range. -/
theorem proceduralGenerationDeterministic (chunkId₁ chunkId₂ : String)
    (biome₁ biome₂ : BiomeType) (hc : chunkId₁ = chunkId₂) (hb : biome₁ = biome₂) :
    generateProceduralContent chunkId₁ biome₁ = generateProceduralContent chunkId₂ biome₂
    ∧ 1 ≤ (generateProceduralContent "3,-2" BiomeType.forest).pointsOfInterest.length
    ∧ (generateProceduralContent "3,-2" BiomeType.forest).pointsOfInterest.length ≤ 3 := by
  subst hc hb
  exact ⟨rfl, by decide, by decide⟩

theorem proceduralGenerationDeterministic_witness :
    generateProceduralContent "3,-2" BiomeType.forest
      = generateProceduralContent "3,-2" BiomeType.forest
    ∧ 1 ≤ (generateProceduralContent "3,-2" BiomeType.forest).pointsOfInterest.length :=
  ⟨(proceduralGenerationDeterministic "3,-2" "3,-2" BiomeType.forest BiomeType.forest rfl rfl).1,
   (proceduralGenerationDeterministic "3,-2" "3,-2" BiomeType.forest BiomeType.forest rfl rfl).2.1⟩

/-- C10: every cell id parsing to integer coordinates with x^2 + z^2 < 4,
exactly the spawn cell and its 8 Moore neighbors, gets the plains biome
unconditionally; every other parsed id gets the hash-selected biome. -/
theorem spawnAreaBiomeOverride (chunkId : String) (x z : Int)
    (h : chunkCoordsInt? chunkId = some (x, z)) :
    (x * x + z * z < 4 → determineBiome chunkId = BiomeType.plains)
    ∧ (4 ≤ x * x + z * z → determineBiome chunkId = hashBiome chunkId)
    ∧ (x * x + z * z < 4 ↔ x.natAbs ≤ 1 ∧ z.natAbs ≤ 1) := by
  refine ⟨?_, ?_, ?_⟩
  · intro h4
    simp only [determineBiome, h]
    simp [h4]
  · intro h4
    simp only [determineBiome, h]
    have : ¬(x * x + z * z < 4) := by omega
    simp [this]
  · constructor
    · intro h4
      have hx : x.natAbs ≤ 1 := by
        by_contra hx
        have h2 : (2 : Int) ≤ x ∨ x ≤ -2 := by omega
        have hxx : 4 ≤ x * x := by rcases h2 with h2 | h2 <;> nlinarith
        nlinarith [mul_self_nonneg z]
      have hz : z.natAbs ≤ 1 := by
        by_contra hz
        have h2 : (2 : Int) ≤ z ∨ z ≤ -2 := by omega
        have hzz : 4 ≤ z * z := by rcases h2 with h2 | h2 <;> nlinarith
        nlinarith [mul_self_nonneg x]
      exact ⟨hx, hz⟩
    · rintro ⟨hx, hz⟩
      have hx2 : -1 ≤ x ∧ x ≤ 1 := by omega
      have hz2 : -1 ≤ z ∧ z ≤ 1 := by omega
      nlinarith [hx2.1, hx2.2, hz2.1, hz2.2]

theorem spawnAreaBiomeOverride_witness :
    chunkCoordsInt? "1,1" = some (1, 1) ∧ determineBiome "1,1" = BiomeType.plains :=
  ⟨by decide, (spawnAreaBiomeOverride "1,1" 1 1 (by decide)).1 (by decide)⟩

/-- C8: the websocket chunk:request handler performs no cell-id grammar
validation: the id abc fails the grammar that the HTTP route enforces, yet
the handler emits no error, answers chunk:generating, creates the cell and
starts a generation for it, while a well-formed id like 3,-2 passes the
grammar; the claimed boundary rejection does not happen on this path. -/
theorem chunkRequestBypassesValidation :
    isValidChunkId "abc" = false
    ∧ isValidChunkId "3,-2" = true
    ∧ (handleChunkRequest sampleOrchState "p1" "abc").2
        = [ServerMessage.chunkGenerating "abc"]
    ∧ ((handleChunkRequest sampleOrchState "p1" "abc").2.any
        ServerMessage.isErrorMessage) = false
    ∧ (handleChunkRequest sampleOrchState "p1" "abc").1.pendingGenerations.contains "abc"
        = true
    ∧ (mapGet? (handleChunkRequest sampleOrchState "p1" "abc").1.world.chunks "abc").map
        WorldChunk.status = some ChunkStatus.generating
    ∧ startCount (handleChunkRequest sampleOrchState "p1" "abc").1 "abc" = 1 := by
  decide


/-- C5: checkSecretReveals skips a discovered secret entirely: it is
returned unchanged, with the same discovered flag and the same discoverer,
and it contributes nothing to the revealed list, whose content comes from
the undiscovered secrets only, even when its conditions are satisfied. -/
theorem secretDiscoveryMonotonic (condMet : String → Bool) (playerId : String)
    (secrets : List WorldSecret) :
    (∀ secret : WorldSecret, secret.discovered = true →
        checkSecretRevealsOne condMet playerId secret = (secret, []))
    ∧ (checkSecretReveals condMet playerId secrets).1
        = secrets.map (fun s => (checkSecretRevealsOne condMet playerId s).1)
    ∧ (checkSecretReveals condMet playerId secrets).2
        = (secrets.filter (fun s => !s.discovered)).flatMap
            (fun s => (checkSecretRevealsOne condMet playerId s).2) := by
  refine ⟨?_, ?_, ?_⟩
  · intro secret h
    unfold checkSecretRevealsOne
    simp [h]
  · induction secrets with
    | nil => rfl
    | cons s rest ih => simp [checkSecretReveals, ih]
  · induction secrets with
    | nil => rfl
    | cons s rest ih =>
      by_cases hd : s.discovered
      · have h1 : checkSecretRevealsOne condMet playerId s = (s, []) := by
          unfold checkSecretRevealsOne
          simp [hd]
        simp [checkSecretReveals, h1, hd, ih]
      · simp [checkSecretReveals, hd, ih]

theorem secretDiscoveryMonotonic_witness :
    sampleDiscoveredSecret.discovered = true
    ∧ checkSecretRevealsOne (fun _ => true) "p2" sampleDiscoveredSecret
        = (sampleDiscoveredSecret, []) :=
  ⟨rfl, (secretDiscoveryMonotonic (fun _ => true) "p2" []).1 sampleDiscoveredSecret rfl⟩

/-- C4: queueChunkGeneration always removes the cell id from the pending set
on completion; a failed generation leaves the cell in status error, which
the needs-generation check still treats as eligible for regeneration, and
a successful one leaves it ready. -/
theorem pendingSetAlwaysCleaned (now : Nat) (s : OrchState) (chunkId : String)
    (outcome : Except Unit ChunkContent) :
    (queueChunkGeneration now s chunkId outcome).pendingGenerations.contains chunkId = false
    ∧ (outcome = Except.error () →
        (mapGet? (queueChunkGeneration now s chunkId outcome).world.chunks chunkId).map
            WorldChunk.status = some ChunkStatus.error
        ∧ needsGeneration (queueChunkGeneration now s chunkId outcome) chunkId = true)
    ∧ (∀ content, outcome = Except.ok content →
        (mapGet? (queueChunkGeneration now s chunkId outcome).world.chunks chunkId).map
            WorldChunk.status = some ChunkStatus.ready) := by
  refine ⟨?_, ?_, ?_⟩
  · unfold queueChunkGeneration finishGeneration
    cases outcome <;> simp [setDelete]
  · rintro rfl
    have hst : (mapGet? (queueChunkGeneration now s chunkId
        (Except.error ())).world.chunks chunkId).map WorldChunk.status
        = some ChunkStatus.error := by
      unfold queueChunkGeneration finishGeneration
      exact updateChunk_status _ _ _ _ rfl
    have hpc : (queueChunkGeneration now s chunkId
        (Except.error ())).pendingGenerations.contains chunkId = false := by
      unfold queueChunkGeneration finishGeneration
      simp [setDelete]
    refine ⟨hst, ?_⟩
    simp only [needsGeneration]
    rw [hst, hpc]
    decide
  · rintro content rfl
    unfold queueChunkGeneration finishGeneration
    exact updateChunk_status _ _ _ _ rfl

theorem pendingSetAlwaysCleaned_witness :
    (queueChunkGeneration 3 sampleOrchState "1,2"
        (Except.error ())).pendingGenerations.contains "1,2" = false
    ∧ (mapGet? (queueChunkGeneration 3 sampleOrchState "1,2"
        (Except.error ())).world.chunks "1,2").map WorldChunk.status
        = some ChunkStatus.error
    ∧ needsGeneration (queueChunkGeneration 3 sampleOrchState "1,2" (Except.error ())) "1,2"
        = true :=
  ⟨(pendingSetAlwaysCleaned 3 sampleOrchState "1,2" (Except.error ())).1,
   ((pendingSetAlwaysCleaned 3 sampleOrchState "1,2" (Except.error ())).2.1 rfl).1,
   ((pendingSetAlwaysCleaned 3 sampleOrchState "1,2" (Except.error ())).2.1 rfl).2⟩

/-- C2: every failure of the generative path (thrown request, non-text
content block, missing JSON block, JSON parse failure) makes
generateChunkContent return exactly the deterministic procedural content
for the cell, and the generation pipeline commits the cell as ready for
every generative outcome, never as error. -/
theorem generativeFailureFallsBack (llm : LLMContent)
    (jsonParse : String → Option GeneratedJson) (rotationDraw : Nat → JsVal)
    (chunkId : String) (now : Nat) (s : OrchState)
    (hfail : generativeFailed llm jsonParse = true) :
    generateChunkContent true llm jsonParse rotationDraw chunkId
      = generateProceduralContent chunkId (determineBiome chunkId)
    ∧ ∀ (llm₂ : LLMContent),
        (mapGet? (queueChunkGeneration now s chunkId (Except.ok
            (generateChunkContent true llm₂ jsonParse rotationDraw chunkId))).world.chunks
          chunkId).map WorldChunk.status = some ChunkStatus.ready := by
  constructor
  · unfold generateChunkContent
    cases llm with
    | failure => simp
    | nonText => simp
    | text body =>
      unfold generativeFailed at hfail
      simp only [Option.isNone_iff_eq_none] at hfail
      simp [hfail]
  · intro llm₂
    unfold queueChunkGeneration finishGeneration
    exact updateChunk_status _ _ _ _ rfl

theorem generativeFailureFallsBack_witness :
    generativeFailed LLMContent.failure (fun _ => none) = true
    ∧ generateChunkContent true LLMContent.failure (fun _ => none)
        (fun _ => JsVal.ofInt 0) "2,3"
        = generateProceduralContent "2,3" (determineBiome "2,3") :=
  ⟨rfl, (generativeFailureFallsBack LLMContent.failure (fun _ => none)
    (fun _ => JsVal.ofInt 0) "2,3" 0 sampleOrchState rfl).1⟩


/-- C1: once a cell id is in the pending-generation set, both the per-tick
lookahead check and the explicit on-demand request leave the orchestrator
state unchanged, so no second generation starts; consequently two
back-to-back triggers of either kind for a never-generated cell, followed
by the completion of the single in-flight generation, produce exactly one
started generation, exactly one ready commit, a cell in status ready, and
a duplicate-free NPC id set. -/
theorem singleGenerationInFlight (s₀ : OrchState) (chunkId : String)
    (k₁ k₂ : TriggerKind) (now : Nat)
    (habsent : mapGet? s₀.world.chunks chunkId = none)
    (hnotpending : s₀.pendingGenerations.contains chunkId = false)
    (hk₁ : ∀ pid, k₁ = TriggerKind.request pid →
      (mapGet? s₀.world.players pid).isSome = true)
    (hk₂ : ∀ pid, k₂ = TriggerKind.request pid →
      (mapGet? s₀.world.players pid).isSome = true) :
    (∀ (s : OrchState) (pid : String), s.pendingGenerations.contains chunkId = true →
        expansionTrigger s chunkId = s ∧ requestTrigger s chunkId pid = s)
    ∧ startCount (twoTriggerScenario now s₀ chunkId k₁ k₂) chunkId
        = startCount s₀ chunkId + 1
    ∧ readyCount (twoTriggerScenario now s₀ chunkId k₁ k₂) chunkId
        = readyCount s₀ chunkId + 1
    ∧ (mapGet? (twoTriggerScenario now s₀ chunkId k₁ k₂).world.chunks chunkId).map
        WorldChunk.status = some ChunkStatus.ready
    ∧ (generateProceduralContent chunkId (determineBiome chunkId)).npcIds.Nodup := by
  have hnp : chunkId ∉ s₀.pendingGenerations := by simpa using hnotpending
  have hskip : ∀ (s : OrchState) (pid : String),
      s.pendingGenerations.contains chunkId = true →
      expansionTrigger s chunkId = s ∧ requestTrigger s chunkId pid = s := by
    intro s pid hc
    have hcm : chunkId ∈ s.pendingGenerations := by simpa using hc
    constructor
    · simp only [expansionTrigger]
      split
      · rfl
      · simp [hcm]
    · simp only [requestTrigger]
      simp [hcm]
  have hs₁ : runTrigger s₀ chunkId k₁ = startGeneration s₀ chunkId := by
    cases k₁ with
    | expansion =>
      simp only [runTrigger, expansionTrigger, habsent]
      simp [hnp]
    | request pid =>
      have hp := hk₁ pid rfl
      simp only [runTrigger, requestTrigger]
      cases hmp : mapGet? s₀.world.players pid with
      | some p => simp [hnp, hmp]
      | none => rw [hmp] at hp; simp at hp
  have hpendm : chunkId ∈ (startGeneration s₀ chunkId).pendingGenerations := by
    simpa using contains_setAdd_self s₀.pendingGenerations chunkId
  have hstatus : (mapGet? (startGeneration s₀ chunkId).world.chunks chunkId).map
      WorldChunk.status = some ChunkStatus.generating := by
    simp only [startGeneration]
    exact updateChunk_status _ _ _ _ rfl
  have hs₂ : runTrigger (startGeneration s₀ chunkId) chunkId k₂
      = startGeneration s₀ chunkId := by
    cases k₂ with
    | expansion =>
      simp only [runTrigger, expansionTrigger, hstatus]
      simp
    | request pid =>
      simp only [runTrigger, requestTrigger]
      simp [hpendm]
  have hfinal : twoTriggerScenario now s₀ chunkId k₁ k₂
      = finishGeneration now (startGeneration s₀ chunkId) chunkId
          (Except.ok (generateProceduralContent chunkId (determineBiome chunkId))) := by
    unfold twoTriggerScenario
    rw [hs₁, hs₂]
  refine ⟨hskip, ?_, ?_, ?_, procedural_npcIds_nodup _ _⟩
  · rw [hfinal]
    simp only [finishGeneration, startGeneration, startCount]
    rw [List.countP_append, List.countP_append]
    simp [GenEvent.isStartOf, List.countP_cons]
  · rw [hfinal]
    simp only [finishGeneration, startGeneration, readyCount]
    rw [List.countP_append, List.countP_append]
    simp [GenEvent.isReadyOf, List.countP_cons]
  · rw [hfinal]
    simp only [finishGeneration]
    exact updateChunk_status _ _ _ _ rfl

theorem singleGenerationInFlight_witness :
    mapGet? sampleOrchState.world.chunks "5,5" = none
    ∧ sampleOrchState.pendingGenerations.contains "5,5" = false
    ∧ startCount (twoTriggerScenario 7 sampleOrchState "5,5" TriggerKind.expansion
        (TriggerKind.request "p1")) "5,5" = startCount sampleOrchState "5,5" + 1
    ∧ readyCount (twoTriggerScenario 7 sampleOrchState "5,5" TriggerKind.expansion
        (TriggerKind.request "p1")) "5,5" = readyCount sampleOrchState "5,5" + 1 :=
  ⟨rfl, rfl,
   (singleGenerationInFlight sampleOrchState "5,5" TriggerKind.expansion
      (TriggerKind.request "p1") 7 rfl rfl (fun _ h => nomatch h)
      (fun pid h => by injection h with h1; subst h1; rfl)).2.1,
   (singleGenerationInFlight sampleOrchState "5,5" TriggerKind.expansion
      (TriggerKind.request "p1") 7 rfl rfl (fun _ h => nomatch h)
      (fun pid h => by injection h with h1; subst h1; rfl)).2.2.1⟩


/-- C7 counterexample: with no generative backend configured the dialogue
entry point produces a fallback reply for an existing player and NPC while
leaving the player-memories map unchanged, so the conversation-history
buffer for the pair stays empty and no interaction record is written,
refuting the claim that every reply updates memory on both paths. -/
theorem dialogueFallbackSkipsMemory :
    (generateNPCDialogue false none sampleWorld sampleMemories
        "p1" "npc_guide" "hello").1.text
      = "Greetings, traveler. I am Elder Sage."
    ∧ (generateNPCDialogue false none sampleWorld sampleMemories
        "p1" "npc_guide" "hello").2 = sampleMemories
    ∧ mapGet? ((mapGet? (generateNPCDialogue false none sampleWorld sampleMemories
          "p1" "npc_guide" "hello").2 "p1").getD
        (freshPlayerMemory samplePlayer)).conversationHistory "npc_guide" = none := by
  decide

/-- C7 amended: on the successful generative path generateNPCDialogue
appends the exchange to the per-NPC conversation history capped at the 10
most recent entries and increments the per-NPC interaction counter; on the
fallback path (no backend configured, or a failed generative call) it
returns the keyword-matching reply and leaves the memories unchanged. -/
theorem dialogueMemoryUpdateByPath (aiOutcome : Option NPCDialogueResponse)
    (world : WorldState) (mems : List (String × PlayerMemory))
    (playerId npcId msg : String) (npc : NPCState) (player : PlayerState)
    (memory : PlayerMemory)
    (hnpc : mapGet? world.npcs npcId = some npc)
    (hplayer : mapGet? world.players playerId = some player)
    (hmem : mapGet? mems playerId = some memory) :
    (∀ response, generateNPCDialogue true (some response) world mems playerId npcId msg
        = (response, mapSet mems playerId
            { memory with
              conversationHistory := mapSet memory.conversationHistory npcId
                (lastN 10 (((mapGet? memory.conversationHistory npcId).getD [])
                  ++ [(msg, response.text)]))
              npcInteractions := mapSet memory.npcInteractions npcId
                (((mapGet? memory.npcInteractions npcId).getD 0) + 1) }))
    ∧ generateNPCDialogue true none world mems playerId npcId msg
        = (generateFallbackDialogue npc msg, mems)
    ∧ generateNPCDialogue false aiOutcome world mems playerId npcId msg
        = (generateFallbackDialogue npc msg, mems) := by
  refine ⟨?_, ?_, ?_⟩
  · intro response
    simp only [generateNPCDialogue, hnpc, hplayer, hmem]
    rfl
  · simp only [generateNPCDialogue, hnpc, hplayer, hmem]
  · simp only [generateNPCDialogue, hnpc, hplayer, hmem]

theorem dialogueMemoryUpdateByPath_witness :
    generateNPCDialogue true (some sampleResponse) sampleWorld sampleMemories
        "p1" "npc_guide" "hi there"
      = (sampleResponse, mapSet sampleMemories "p1"
          { freshPlayerMemory samplePlayer with
            conversationHistory := mapSet
              (freshPlayerMemory samplePlayer).conversationHistory "npc_guide"
              (lastN 10 (((mapGet? (freshPlayerMemory samplePlayer).conversationHistory
                  "npc_guide").getD []) ++ [("hi there", sampleResponse.text)]))
            npcInteractions := mapSet (freshPlayerMemory samplePlayer).npcInteractions
              "npc_guide"
              (((mapGet? (freshPlayerMemory samplePlayer).npcInteractions
                  "npc_guide").getD 0) + 1) }) :=
  (dialogueMemoryUpdateByPath (some sampleResponse) sampleWorld sampleMemories
    "p1" "npc_guide" "hi there" sampleNpc samplePlayer (freshPlayerMemory samplePlayer)
    rfl rfl rfl).1 sampleResponse

/-- C9 counterexample: a climax thread at progress 0.9 involving the acting
player is advanced to progress 1 and status resolved by a matching action
and appended to the resolved collection, but it is not removed from the
active collection: after the call both collections hold the thread. -/
theorem resolvedThreadStaysActive :
    ((advanceNarratives 5 "p1" sampleAction sampleNarrativeMemory).1.activeNarratives.map
        NarrativeThread.id = ["n1"])
    ∧ ((advanceNarratives 5 "p1" sampleAction sampleNarrativeMemory).1.resolvedNarratives.map
        NarrativeThread.id = ["n1"])
    ∧ ((advanceNarratives 5 "p1" sampleAction sampleNarrativeMemory).1.activeNarratives.map
        NarrativeThread.status = [NarrativeStatus.resolved]) := by
  norm_num [advanceNarratives, checkNarrativeAdvancement, sampleNarrativeMemory,
    sampleNarrative, sampleAction, narrativeMatches]

/-- C9 amended: checkNarrativeAdvancement rewrites each matching active
thread in place by the 0.1-step clamped advance, resolved on reaching 1
and climax on reaching 0.7 below 1, and appends the newly resolved threads
to the resolved collection while the active collection keeps every thread
(its ids are preserved); the advance never moves a thread whose status and
progress are consistent backwards. -/
theorem narrativeAdvancementCharacterized (now : Nat) (playerId : String)
    (action : PlayerAction) (active : List NarrativeThread) :
    (checkNarrativeAdvancement now playerId action active).1
      = active.map (fun t => if narrativeMatches playerId action t
          then advanceMatchedThread now t else t)
    ∧ (checkNarrativeAdvancement now playerId action active).2.1
      = active.flatMap (fun t => if narrativeMatches playerId action t then
          (if 1 ≤ (advanceMatchedThread now t).playerProgress
            then [advanceMatchedThread now t] else [])
          else [])
    ∧ (checkNarrativeAdvancement now playerId action active).1.map NarrativeThread.id
      = active.map NarrativeThread.id
    ∧ (∀ t : NarrativeThread, t.status = NarrativeStatus.climax →
        7 / 10 ≤ t.playerProgress →
        (advanceMatchedThread now t).status = NarrativeStatus.climax
        ∨ (advanceMatchedThread now t).status = NarrativeStatus.resolved)
    ∧ (∀ t : NarrativeThread, 1 ≤ t.playerProgress →
        (advanceMatchedThread now t).status = NarrativeStatus.resolved) := by
  have h12 : ∀ l : List NarrativeThread,
      (checkNarrativeAdvancement now playerId action l).1
        = l.map (fun t => if narrativeMatches playerId action t
            then advanceMatchedThread now t else t)
      ∧ (checkNarrativeAdvancement now playerId action l).2.1
        = l.flatMap (fun t => if narrativeMatches playerId action t then
            (if 1 ≤ (advanceMatchedThread now t).playerProgress
              then [advanceMatchedThread now t] else [])
            else []) := by
    intro l
    induction l with
    | nil => exact ⟨rfl, rfl⟩
    | cons t rest ih =>
      by_cases hm : narrativeMatches playerId action t
      · refine ⟨?_, ?_⟩
        · simp only [checkNarrativeAdvancement, hm, if_true, List.map_cons, ih.1]
          rfl
        · simp only [checkNarrativeAdvancement, hm, if_true, List.flatMap_cons, ih.2]
          rfl
      · refine ⟨?_, ?_⟩
        · simp only [checkNarrativeAdvancement, List.map_cons, ih.1]
          simp [hm]
        · simp only [checkNarrativeAdvancement, List.flatMap_cons, ih.2]
          simp [hm]
  have hid : ∀ l : List NarrativeThread,
      (l.map (fun t => if narrativeMatches playerId action t
          then advanceMatchedThread now t else t)).map NarrativeThread.id
        = l.map NarrativeThread.id := by
    intro l
    induction l with
    | nil => rfl
    | cons t rest ih =>
      simp only [List.map_cons, ih]
      congr 1
      by_cases hm : narrativeMatches playerId action t
      · simp [hm, advanceMatchedThread]
      · simp [hm]
  have hstat : ∀ t : NarrativeThread, (advanceMatchedThread now t).status
      = (if 1 ≤ min 1 (t.playerProgress + 1 / 10) then NarrativeStatus.resolved
         else if 7 / 10 ≤ min 1 (t.playerProgress + 1 / 10) then NarrativeStatus.climax
         else t.status) := fun t => rfl
  refine ⟨(h12 active).1, (h12 active).2, ?_, ?_, ?_⟩
  · rw [(h12 active).1]
    exact hid active
  · intro t hst hp
    by_cases h1 : (1 : ℚ) ≤ min 1 (t.playerProgress + 1 / 10)
    · right
      rw [hstat t, if_pos h1]
    · left
      have h7 : (7 : ℚ) / 10 ≤ min 1 (t.playerProgress + 1 / 10) := by
        rw [le_min_iff]
        constructor <;> linarith
      rw [hstat t, if_neg h1, if_pos h7]
  · intro t hp
    have h1 : (1 : ℚ) ≤ min 1 (t.playerProgress + 1 / 10) := by
      rw [le_min_iff]
      constructor <;> linarith
    rw [hstat t, if_pos h1]

theorem narrativeAdvancementCharacterized_witness :
    (checkNarrativeAdvancement 5 "p1" sampleAction [sampleNarrative]).1
      = [sampleNarrative].map (fun t => if narrativeMatches "p1" sampleAction t
          then advanceMatchedThread 5 t else t)
    ∧ ((advanceMatchedThread 5 sampleNarrative).status = NarrativeStatus.climax
       ∨ (advanceMatchedThread 5 sampleNarrative).status = NarrativeStatus.resolved) :=
  ⟨(narrativeAdvancementCharacterized 5 "p1" sampleAction [sampleNarrative]).1,
   (narrativeAdvancementCharacterized 5 "p1" sampleAction [sampleNarrative]).2.2.2.1
     sampleNarrative rfl (by norm_num [sampleNarrative])⟩

end Genesis
